import Mathlib

/-!
Verification development for the landlab tutorial-notebook repository.

The repository consists of Jupyter notebooks that call the external landlab
library.  We shallowly embed the notebooks as lists of cells, each cell a
list of statements transcribed one-for-one from the notebook source
(markdown cells are dropped, code cells are kept in order).  The statement
type records, for each source statement, the information the claims are
about: which library entry point is invoked, with which kinds of arguments,
which names are bound, read, or mutated in place, and the structure of the
fixed-count model loops.

Numeric claims about notebook computations (the bedrock-reset invariant,
the interior-rectangle boundary mask, and the cumulative fault throw) are
embedded over exact rational arithmetic.
-/

/-- Kind of an argument appearing syntactically at a library call site in a
notebook cell.  `lit` covers literal constants, literal tuples/dicts/lists,
and direct references to library attributes; `namedLit` is a variable whose
defining statement bound it to a literal parameter value; `fieldName` is a
string literal naming a grid field; `obj` is a previously constructed
library object (grid, component, record, flow director); `arr` is an array
or other value computed by earlier notebook code. -/
inductive ArgV
  | lit
  | namedLit (name : String)
  | fieldName (s : String)
  | obj (name : String)
  | arr (name : String)
deriving BEq, DecidableEq

/-- Statements that occur inside the fixed-count model loops of the
notebooks.  Loop bodies in this corpus contain only component step calls,
in-place array mutations, rebinding computations, and prints. -/
inductive SimpleStmt
  | step (obj method : String) (args : List ArgV) (mutates : List String)
  | mutate (target : String) (reads : List String)
  | compute (name : String) (reads : List String)
  | printOut
deriving BEq, DecidableEq

/-- Top-level statements of notebook code cells.  `tryExcept` and `funcDef`
are present so that the absence of error handling and of locally defined
functions is a fact about the embedding rather than about the statement
type; neither occurs in any transcribed cell. -/
inductive Stmt
  | imp (modules : List String)
  | warnFilter (action : String)
  | setLit (name : String)
  | compute (name : String) (reads : List String)
  | mkGrid (name ctor : String) (args : List ArgV)
  | addField (gridName fieldNm boundName : String) (reads : List String)
  | mkComponent (name cls : String) (args : List ArgV)
  | mkRecord (name cls : String) (args : List ArgV)
  | agg (name obj : String) (args : List ArgV)
  | step (obj method : String) (args : List ArgV) (mutates : List String)
  | landlabPlot (fn : String) (args : List ArgV)
  | pltCall (fn : String) (reads : List String)
  | query (reads : List String)
  | mutate (target : String) (reads : List String)
  | setStatus (gridName : String) (reads : List String)
  | loop (count : Nat) (body : List SimpleStmt)
  | tryExcept (body handler : List SimpleStmt)
  | funcDef (name : String)
deriving BEq, DecidableEq

/-- The phases of the tutorial-script shape described by the spec. -/
inductive Phase
  | imp
  | grid
  | field
  | comp
  | run
  | plot
  | other
deriving BEq, DecidableEq

/-- A notebook file: its nbformat metadata, kernel language, code cells, the
names bound in it to the grid object or to arrays backed by grid fields, and
the names bound to stateful library objects (process components, flow
directors, the parcels DataRecord). -/
structure NotebookFile where
  nbformat : Nat
  nbformatMinor : Nat
  kernelLanguage : String
  cells : List (List Stmt)
  gridNames : List String
  stateObjects : List String

/-- Names read through an argument position. -/
def argReadNames : ArgV → List String
  | .namedLit n => [n]
  | .obj n => [n]
  | .arr n => [n]
  | _ => []

/-- Names read through a whole argument list. -/
def argsReadNames (l : List ArgV) : List String := (l.map argReadNames).flatten

namespace SimpleStmt

/-- Names mutated in place by a loop-body statement. -/
def mutWrites : SimpleStmt → List String
  | .step _ _ _ m => m
  | .mutate t _ => [t]
  | _ => []

/-- Names read by a loop-body statement. -/
def reads : SimpleStmt → List String
  | .step o _ args _ => o :: argsReadNames args
  | .mutate t rs => t :: rs
  | .compute _ rs => rs
  | .printOut => []

/-- Phase of a loop-body statement. -/
def phase : SimpleStmt → Phase
  | .step .. => .run
  | _ => .other

/-- Loop-body statement is a component step call. -/
def isStep : SimpleStmt → Bool
  | .step .. => true
  | _ => false

/-- Argument list of a loop-body step call, when it is one. -/
def stepArgs : SimpleStmt → Option (List ArgV)
  | .step _ _ a _ => some a
  | _ => none

end SimpleStmt

namespace Stmt

/-- Names mutated in place by a statement.  Creating a field on a grid
mutates the grid object; a component step call mutates the listed objects
and grid fields; rebinding a name with `compute` is not a mutation. -/
def mutWrites : Stmt → List String
  | .addField g _ _ _ => [g]
  | .step _ _ _ m => m
  | .mutate t _ => [t]
  | .setStatus g _ => [g]
  | .loop _ body => (body.map SimpleStmt.mutWrites).flatten
  | .tryExcept b h => (b.map SimpleStmt.mutWrites).flatten ++ (h.map SimpleStmt.mutWrites).flatten
  | _ => []

/-- Names read by a statement. -/
def reads : Stmt → List String
  | .compute _ rs => rs
  | .mkGrid _ _ args => argsReadNames args
  | .addField _ _ _ rs => rs
  | .mkComponent _ _ args => argsReadNames args
  | .mkRecord _ _ args => argsReadNames args
  | .agg _ o args => o :: argsReadNames args
  | .step o _ args _ => o :: argsReadNames args
  | .landlabPlot _ args => argsReadNames args
  | .pltCall _ rs => rs
  | .query rs => rs
  | .mutate t rs => t :: rs
  | .setStatus g rs => g :: rs
  | .loop _ body => (body.map SimpleStmt.reads).flatten
  | .tryExcept b h => (b.map SimpleStmt.reads).flatten ++ (h.map SimpleStmt.reads).flatten
  | _ => []

/-- Phases contributed by a statement, in source order. -/
def phases : Stmt → List Phase
  | .imp _ => [.imp]
  | .mkGrid .. => [.grid]
  | .addField .. => [.field]
  | .mkComponent .. => [.comp]
  | .step .. => [.run]
  | .landlabPlot .. => [.plot]
  | .pltCall .. => [.plot]
  | .loop _ body => body.map SimpleStmt.phase
  | _ => [.other]

/-- Argument lists of the library call sites in a statement. -/
def callArgs : Stmt → List ArgV
  | .mkGrid _ _ a => a
  | .mkComponent _ _ a => a
  | .mkRecord _ _ a => a
  | .agg _ _ a => a
  | .step _ _ a _ => a
  | .landlabPlot _ a => a
  | .loop _ body => ((body.filterMap SimpleStmt.stepArgs).map id).flatten
  | _ => []

/-- Argument lists of the per-step update calls in a statement. -/
def stepArgLists : Stmt → List (List ArgV)
  | .step _ _ a _ => [a]
  | .loop _ body => body.filterMap SimpleStmt.stepArgs
  | _ => []

/-- Argument lists of the landlab plotting-helper calls in a statement. -/
def landlabPlotArgLists : Stmt → List (List ArgV)
  | .landlabPlot _ a => [a]
  | _ => []

/-- The statement intercepts exceptions.  In Python only a `try`/`except`
block can catch an exception raised by a call; `warnings.filterwarnings`
configures the warnings module and neither catches nor suppresses a raised
exception. -/
def isErrorHandling : Stmt → Bool
  | .tryExcept _ _ => true
  | _ => false

/-- The statement defines a function of its own. -/
def isFuncDef : Stmt → Bool
  | .funcDef _ => true
  | _ => false

/-- The statement is an import. -/
def isImport : Stmt → Bool
  | .imp _ => true
  | _ => false

/-- The statement is a call into the external library. -/
def isLibraryCall : Stmt → Bool
  | .mkGrid .. => true
  | .addField .. => true
  | .mkComponent .. => true
  | .mkRecord .. => true
  | .agg .. => true
  | .step .. => true
  | .query _ => true
  | _ => false

/-- The statement is a bare parameter choice (a name bound to a literal). -/
def isParamChoice : Stmt → Bool
  | .setLit _ => true
  | _ => false

/-- The statement is a plotting command. -/
def isPlotting : Stmt → Bool
  | .landlabPlot .. => true
  | .pltCall .. => true
  | _ => false

/-- The statement is a component construction of the given library class. -/
def constructsClass (cls : String) : Stmt → Bool
  | .mkComponent _ c _ => c == cls
  | _ => false

/-- The statement assigns node boundary statuses on a grid. -/
def isSetStatus : Stmt → Bool
  | .setStatus _ _ => true
  | _ => false

end Stmt

/-- Names mutated in place anywhere in a cell. -/
def cellMutWrites (c : List Stmt) : List String := (c.map Stmt.mutWrites).flatten

/-- Names read anywhere in a cell. -/
def cellReads (c : List Stmt) : List String := (c.map Stmt.reads).flatten

/-- Names that are mutated in place in some cell and read by a strictly
later cell: the mutable state actually shared between cells. -/
def sharedMutated : List (List Stmt) → List String
  | [] => []
  | c :: rest =>
      (cellMutWrites c).filter (fun n => ((rest.map cellReads).flatten).contains n)
        ++ sharedMutated rest

/-- The phase sequence of a notebook, cells flattened in order. -/
def nbPhases (cells : List (List Stmt)) : List Phase :=
  (cells.flatten.map Stmt.phases).flatten

/-- `isSubseq needle haystack` holds when `needle` occurs, in order but not
necessarily contiguously, inside `haystack`. -/
def isSubseq [BEq α] (needle : List α) : List α → Bool
  | [] => needle.isEmpty
  | b :: bs =>
      match needle with
      | [] => true
      | a :: as => if a == b then isSubseq as bs else isSubseq (a :: as) bs

/-- All statements of a notebook, cells flattened in order. -/
def nbStmts (f : NotebookFile) : List Stmt := f.cells.flatten

/-- The file carries Jupyter notebook metadata: nbformat 4 with a Python
kernel. -/
def nbIsJupyter (f : NotebookFile) : Bool :=
  f.nbformat == 4 && f.kernelLanguage == "python"

/-!
Transcription of
`notebooks/tutorials/network_sediment_transporter/network_sediment_transporter_shapefile_network.ipynb`.
Code cells in order; each statement below corresponds to one statement of
the cell source.
-/

/-- Code cells of the NetworkSedimentTransporter shapefile tutorial. -/
def nstCells : List (List Stmt) :=
  [ -- cell 1: imports, warnings.filterwarnings("ignore"), %matplotlib inline
    [ .imp ["warnings"],
      .warnFilter "ignore",
      .imp ["os", "pathlib", "matplotlib.pyplot", "numpy", "xarray",
            "landlab.components", "landlab.data_record",
            "landlab.grid.network", "landlab.plot", "landlab.io", "landlab"] ],
    -- cell 2: datadir/shapefile paths and grid = read_shapefile(...)
    [ .compute "datadir" [],
      .compute "shp_file" ["datadir"],
      .compute "points_shapefile" ["datadir"],
      .mkGrid "grid" "read_shapefile"
        [.arr "shp_file", .arr "points_shapefile", .lit, .lit, .lit, .lit, .lit] ],
    -- cell 3: grid.at_link.keys()
    [ .query ["grid"] ],
    -- cell 4: grid.at_node.keys()
    [ .query ["grid"] ],
    -- cell 5: graph.plot_graph(grid, at="node,link")
    [ .landlabPlot "plot_graph" [.obj "grid", .lit] ],
    -- cell 6: grid.number_of_links
    [ .query ["grid"] ],
    -- cell 7: grid.number_of_nodes
    [ .query ["grid"] ],
    -- cell 8: bedrock__elevation copy, channel_width, flow_depth fields
    [ .addField "grid" "bedrock__elevation" "" ["grid"],
      .addField "grid" "channel_width" "" [],
      .addField "grid" "flow_depth" "" [] ],
    -- cell 9: parcel variable arrays (element_id, volume, ..., D)
    [ .compute "element_id" ["grid"],
      .compute "element_id" ["element_id"],
      .compute "volume" ["element_id"],
      .compute "active_layer" ["element_id"],
      .compute "density" ["element_id"],
      .compute "abrasion_rate" ["element_id"],
      .setLit "medianD",
      .compute "mu" ["medianD"],
      .compute "sigma" [],
      .query [],
      .compute "D" ["mu", "sigma", "element_id"] ],
    -- cell 10: time_arrival_in_link, location_in_link
    [ .compute "time_arrival_in_link" ["element_id"],
      .compute "location_in_link" ["element_id"] ],
    -- cell 11: lithology
    [ .compute "lithology" ["element_id"] ],
    -- cell 12: variables dict
    [ .compute "variables"
        ["abrasion_rate", "density", "lithology", "time_arrival_in_link",
         "active_layer", "location_in_link", "D", "volume"] ],
    -- cell 13: items dict and parcels = DataRecord(...)
    [ .compute "items" ["element_id"],
      .mkRecord "parcels" "DataRecord"
        [.obj "grid", .arr "items", .lit, .arr "variables", .lit] ],
    -- cell 14: timesteps = 10, dt = 60*60*24*2
    [ .setLit "timesteps", .setLit "dt" ],
    -- cell 15: fd = FlowDirectorSteepest(...); fd.run_one_step()
    [ .mkComponent "fd" "FlowDirectorSteepest"
        [.obj "grid", .fieldName "topographic__elevation"],
      .step "fd" "run_one_step" [] ["fd", "grid"] ],
    -- cell 16: nst = NetworkSedimentTransporter(...)
    [ .mkComponent "nst" "NetworkSedimentTransporter"
        [.obj "grid", .obj "parcels", .obj "fd", .lit, .lit, .lit, .lit] ],
    -- cell 17: for t in range(0, timesteps*dt, dt): nst.run_one_step(dt); print(...)
    [ .loop 10
        [ .step "nst" "run_one_step" [.namedLit "dt"] ["nst", "parcels", "grid"],
          .printOut ] ],
    -- cell 18: parcelfilter, vol_orig_link aggregate, plot_network_and_parcels
    [ .setLit "timestep_of_interest",
      .setLit "originating_link",
      .compute "parcelfilter" ["parcels"],
      .mutate "parcelfilter" ["parcels", "originating_link", "timestep_of_interest"],
      .agg "vol_orig_link" "parcels"
        [.lit, .fieldName "volume", .lit, .arr "parcelfilter", .lit],
      .landlabPlot "plot_network_and_parcels"
        [.obj "grid", .obj "parcels", .arr "vol_orig_link", .lit] ],
    -- cell 19: parcel_vol_on_grid and total-volume plot
    [ .compute "parcel_vol_on_grid" ["parcels"],
      .mutate "parcel_vol_on_grid" ["parcels"],
      .pltCall "plot" ["parcels", "parcel_vol_on_grid"],
      .pltCall "ylabel" [],
      .pltCall "xlabel" [],
      .pltCall "show" [] ],
    -- cell 20: plt.loglog(parcels.dataset.D[:, -1], nst._distance_traveled_cumulative, ".")
    [ .pltCall "loglog" ["parcels", "nst"],
      .pltCall "xlabel" [],
      .pltCall "ylabel" [] ],
    -- cell 21: plt.plot(grid.at_link["channel_slope"], nst.d_mean_active, ".")
    [ .pltCall "plot" ["grid", "nst"],
      .pltCall "xlabel" [],
      .pltCall "ylabel" [] ] ]

/-- The NetworkSedimentTransporter shapefile tutorial notebook file. -/
def nstFile : NotebookFile :=
  { nbformat := 4
    nbformatMinor := 2
    kernelLanguage := "python"
    cells := nstCells
    gridNames := ["grid"]
    stateObjects := ["fd", "nst", "parcels"] }

/-!
Transcription of the boundary-conditions tutorial
("Setting Boundary Conditions: interior rectangle").
-/

/-- Code cells of the interior-rectangle boundary-conditions tutorial. -/
def bcCells : List (List Stmt) :=
  [ -- cell 1: imports
    [ .imp ["landlab", "numpy", "landlab.plot.imshow", "matplotlib.pyplot"] ],
    -- cell 2: mg = RasterModelGrid((10, 10))
    [ .mkGrid "mg" "RasterModelGrid" [.lit] ],
    -- cell 3: min_x = 2.5, max_x = 5.0, min_y = 3.5, max_y = 7.5
    [ .setLit "min_x", .setLit "max_x", .setLit "min_y", .setLit "max_y" ],
    -- cell 4: x_condition, y_condition, my_nodes masks
    [ .compute "x_condition" ["mg", "max_x", "min_x"],
      .compute "y_condition" ["mg", "max_y", "min_y"],
      .compute "my_nodes" ["x_condition", "y_condition"] ],
    -- cell 5: mg.status_at_node[my_nodes] = mg.BC_NODE_IS_CLOSED
    [ .setStatus "mg" ["mg", "my_nodes"] ],
    -- cell 6: z = mg.add_zeros("topographic__elevation", at="node")
    [ .addField "mg" "topographic__elevation" "z" ["mg"] ],
    -- cell 7: imshow_grid_at_node(mg, z)
    [ .landlabPlot "imshow_grid_at_node" [.obj "mg", .arr "z"] ] ]

/-- The interior-rectangle boundary-conditions notebook file. -/
def bcFile : NotebookFile :=
  { nbformat := 4
    nbformatMinor := 1
    kernelLanguage := "python"
    cells := bcCells
    gridNames := ["mg", "z"]
    stateObjects := [] }

/-!
Transcription of `notebooks/tutorials/flexure/flexure_1d.ipynb`.
-/

/-- Code cells of the Flexure1D tutorial. -/
def flexCells : List (List Stmt) :=
  [ -- cell 1: import numpy, matplotlib.pyplot
    [ .imp ["numpy", "matplotlib.pyplot"] ],
    -- cell 2: from landlab import RasterModelGrid
    [ .imp ["landlab"] ],
    -- cell 3: grid = RasterModelGrid((3, 800), xy_spacing=(100e3, 10e3))
    [ .mkGrid "grid" "RasterModelGrid" [.lit, .lit] ],
    -- cell 4: grid.dy, grid.dx
    [ .query ["grid"] ],
    -- cell 5: from landlab.components import Flexure1D
    [ .imp ["landlab.components"] ],
    -- cell 6: Flexure1D.input_var_names
    [ .query [] ],
    -- cell 7: Flexure1D.var_units(...)
    [ .query [] ],
    -- cell 8: Flexure1D.var_help(...)
    [ .query [] ],
    -- cell 9: Flexure1D.output_var_names
    [ .query [] ],
    -- cell 10: Flexure1D.var_help(...)
    [ .query [] ],
    -- cell 11: add pressure field; flex = Flexure1D(grid, method="flexure")
    [ .addField "grid" "lithosphere__increment_of_overlying_pressure" "" ["grid"],
      .mkComponent "flex" "Flexure1D" [.obj "grid", .lit] ],
    -- cell 12: flex.load_at_node[1, 200] = 1e6; flex.update(); plt.plot(...)
    [ .mutate "flex" [],
      .step "flex" "update" [] ["flex", "grid"],
      .pltCall "plot" ["flex"] ],
    -- cell 13: flex.dz_at_node[:] = 0.0
    [ .mutate "flex" [] ],
    -- cell 14: flex.eet *= 2.0; flex.update(); plt.plot(...)
    [ .mutate "flex" ["flex"],
      .step "flex" "update" [] ["flex", "grid"],
      .pltCall "plot" ["flex"] ],
    -- cell 15: distributed load assignments on flex.load_at_node
    [ .mutate "flex" [], .mutate "flex" [], .mutate "flex" [] ],
    -- cell 16: plt.plot(flex.load_at_node[1, :400])
    [ .pltCall "plot" ["flex"] ],
    -- cell 17: flex.dz_at_node[:] = 0.0; flex.update()
    [ .mutate "flex" [],
      .step "flex" "update" [] ["flex", "grid"] ],
    -- cell 18: plt.plot(flex.x_at_node[1, :400] / 1000.0, flex.dz_at_node[1, :400])
    [ .pltCall "plot" ["flex"] ] ]

/-- The Flexure1D tutorial notebook file. -/
def flexFile : NotebookFile :=
  { nbformat := 4
    nbformatMinor := 1
    kernelLanguage := "python"
    cells := flexCells
    gridNames := ["grid"]
    stateObjects := ["flex"] }

/-!
Transcription of the NormalFault tutorial notebook.
-/

/-- Loop body of the first two landscape-evolution model runs (cells 7, 8
and 11): nf.run_one_step(dt); fr.run_one_step(); fs.run_one_step(dt);
z[grid.core_nodes] += uplift.  In cell 7 the uplift literal 0.0001 is
written inline, in cells 8 and 11 it is U; both read dt. -/
def nfBasicLoopBody (upliftReads : List String) : List SimpleStmt :=
  [ .step "nf" "run_one_step" [.namedLit "dt"] ["nf", "z", "grid"],
    .step "fr" "run_one_step" [] ["fr", "grid"],
    .step "fs" "run_one_step" [.namedLit "dt"] ["fs", "z", "grid"],
    .mutate "z" upliftReads ]

/-- Code cells of the NormalFault tutorial. -/
def nfCells : List (List Stmt) :=
  [ -- cell 1: imports and %matplotlib inline
    [ .imp ["matplotlib.pyplot", "numpy", "landlab", "landlab.components",
            "landlab.plot"] ],
    -- cell 2: 6x6 grid, field, nf = NormalFault(grid), faulted-nodes plot
    [ .mkGrid "grid" "RasterModelGrid" [.lit],
      .addField "grid" "topographic__elevation" "" ["grid"],
      .mkComponent "nf" "NormalFault" [.obj "grid"],
      .pltCall "figure" [],
      .landlabPlot "imshow_grid" [.obj "grid", .arr "faulted_nodes", .lit],
      .pltCall "plot" ["grid"],
      .pltCall "show" [] ],
    -- cell 3: nf = NormalFault(grid, include_boundaries=True) and plot
    [ .mkComponent "nf" "NormalFault" [.obj "grid", .lit],
      .pltCall "figure" [],
      .landlabPlot "imshow_grid" [.obj "grid", .arr "faulted_nodes", .lit],
      .pltCall "plot" ["grid"],
      .pltCall "show" [] ],
    -- cell 4: 60x100 grid, fault_trace dict literal, plot
    [ .mkGrid "grid" "RasterModelGrid" [.lit],
      .addField "grid" "topographic__elevation" "z" ["grid"],
      .mkComponent "nf" "NormalFault" [.obj "grid", .lit],
      .landlabPlot "imshow_grid" [.obj "grid", .arr "faulted_nodes", .lit] ],
    -- cell 5: same with reversed fault trace
    [ .mkGrid "grid" "RasterModelGrid" [.lit],
      .addField "grid" "topographic__elevation" "z" ["grid"],
      .mkComponent "nf" "NormalFault" [.obj "grid", .lit],
      .landlabPlot "imshow_grid" [.obj "grid", .arr "faulted_nodes", .lit] ],
    -- cell 6: K, U, dt, dx, nr, nc parameter choices
    [ .setLit "K", .setLit "U", .setLit "dt", .setLit "dx",
      .setLit "nr", .setLit "nc" ],
    -- cell 7: HexModelGrid model, 300-step loop, imshow_grid(grid, z)
    [ .mkGrid "grid" "HexModelGrid"
        [.namedLit "nr", .namedLit "nc", .namedLit "dx", .lit],
      .addField "grid" "topographic__elevation" "z" ["grid"],
      .mutate "z" ["grid"],
      .mkComponent "fr" "FlowAccumulator" [.obj "grid"],
      .mkComponent "fs" "FastscapeEroder" [.obj "grid", .namedLit "K"],
      .mkComponent "nf" "NormalFault" [.obj "grid", .lit],
      .loop 300 (nfBasicLoopBody ["grid", "dt"]),
      .landlabPlot "imshow_grid" [.obj "grid", .arr "z"] ],
    -- cell 8: same model with include_boundaries=True, uplift U * dt
    [ .mkGrid "grid" "HexModelGrid"
        [.namedLit "nr", .namedLit "nc", .lit, .lit],
      .addField "grid" "topographic__elevation" "z" ["grid"],
      .mutate "z" ["grid"],
      .mkComponent "fr" "FlowAccumulator" [.obj "grid"],
      .mkComponent "fs" "FastscapeEroder" [.obj "grid", .namedLit "K"],
      .mkComponent "nf" "NormalFault" [.obj "grid", .lit, .lit],
      .loop 300 (nfBasicLoopBody ["grid", "U", "dt"]),
      .landlabPlot "imshow_grid" [.obj "grid", .arr "z"] ],
    -- cell 9: time and rate arrays for the throw-rate history, rate plot
    [ .compute "time" ["dt"],
      .compute "rate" [],
      .pltCall "figure" [],
      .pltCall "plot" ["time", "rate"],
      .pltCall "plot" ["dt"],
      .pltCall "xlabel" [],
      .pltCall "ylabel" [],
      .pltCall "show" [] ],
    -- cell 10: cumulative fault throw for constant and variable histories
    [ .compute "t" ["dt"],
      .compute "rate_constant" ["t", "dt"],
      .compute "rate_variable" ["t", "time", "rate"],
      .compute "cumulative_rock_uplift_constant" ["rate_constant", "dt"],
      .compute "cumulative_rock_uplift_variable" ["rate_variable", "dt"],
      .pltCall "figure" [],
      .pltCall "plot" ["t", "cumulative_rock_uplift_constant"],
      .pltCall "plot" ["t", "cumulative_rock_uplift_variable"],
      .pltCall "xlabel" [],
      .pltCall "ylabel" [],
      .pltCall "show" [] ],
    -- cell 11: model with fault_throw_rate_through_time={"time": time, "rate": rate}
    [ .mkGrid "grid" "HexModelGrid"
        [.namedLit "nr", .namedLit "nc", .lit, .lit],
      .addField "grid" "topographic__elevation" "z" ["grid"],
      .mutate "z" ["grid"],
      .mkComponent "fr" "FlowAccumulator" [.obj "grid"],
      .mkComponent "fs" "FastscapeEroder" [.obj "grid", .namedLit "K"],
      .mkComponent "nf" "NormalFault"
        [.obj "grid", .arr "time", .arr "rate", .lit, .lit],
      .loop 300 (nfBasicLoopBody ["grid", "U", "dt"]),
      .landlabPlot "imshow_grid" [.obj "grid", .arr "z"] ],
    -- cell 12: soil-model imports and parameter choices
    [ .imp ["landlab.components"],
      .setLit "K", .setLit "U", .setLit "max_soil_production_rate",
      .setLit "soil_production_decay_depth", .setLit "linear_diffusivity",
      .setLit "soil_transport_decay_depth", .setLit "dt", .setLit "dx",
      .setLit "nr", .setLit "nc" ],
    -- cell 13: ?ExponentialWeatherer
    [ .query [] ],
    -- cell 14: soil/bedrock model with the bedrock np.minimum reset
    [ .mkGrid "grid" "HexModelGrid"
        [.namedLit "nr", .namedLit "nc", .lit, .lit],
      .addField "grid" "topographic__elevation" "z" ["grid"],
      .mutate "z" ["grid"],
      .addField "grid" "soil__depth" "d" ["grid"],
      .addField "grid" "bedrock__elevation" "b" ["grid"],
      .mutate "b" ["z", "d"],
      .mkComponent "fr" "FlowAccumulator" [.obj "grid", .lit, .lit],
      .mkComponent "fs" "FastscapeEroder" [.obj "grid", .namedLit "K"],
      .mkComponent "ew" "ExponentialWeatherer"
        [.obj "grid", .namedLit "soil_production_decay_depth",
         .namedLit "max_soil_production_rate"],
      .mkComponent "dd" "DepthDependentDiffuser"
        [.obj "grid", .namedLit "linear_diffusivity",
         .namedLit "soil_transport_decay_depth"],
      .mkComponent "nf" "NormalFault" [.obj "grid", .lit, .lit, .lit],
      .loop 300
        [ .step "nf" "run_one_step" [.namedLit "dt"] ["nf", "z", "grid"],
          .step "fr" "run_one_step" [] ["fr", "grid"],
          .step "fs" "run_one_step" [.namedLit "dt"] ["fs", "z", "grid"],
          .compute "b" ["grid"],
          .mutate "b" ["b", "grid"],
          .step "ew" "calc_soil_prod_rate" [] ["ew", "grid"],
          .step "dd" "run_one_step" [.namedLit "dt"] ["dd", "z", "d", "grid"],
          .mutate "z" ["grid", "U", "dt"],
          .mutate "b" ["grid", "U", "dt"] ],
      .landlabPlot "imshow_grid" [.obj "grid", .fieldName "topographic__elevation"] ],
    -- cell 15: imshow_grid(grid, "soil__depth", cmap="viridis")
    [ .landlabPlot "imshow_grid" [.obj "grid", .fieldName "soil__depth", .lit] ],
    -- cell 16: imshow_grid(grid, "soil_production__rate", cmap="viridis")
    [ .landlabPlot "imshow_grid" [.obj "grid", .fieldName "soil_production__rate", .lit] ],
    -- cell 17: empty trailing code cell
    [] ]

/-- The NormalFault tutorial notebook file. -/
def nfFile : NotebookFile :=
  { nbformat := 4
    nbformatMinor := 2
    kernelLanguage := "python"
    cells := nfCells
    gridNames := ["grid", "z", "b", "d"]
    stateObjects := ["nf", "fr", "fs", "ew", "dd"] }

/-- All notebook files of the repository, in repository order. -/
def repoFiles : List NotebookFile := [nstFile, bcFile, flexFile, nfFile]

/-!
Claim-level definitions.
-/

/-- The full phase order asserted by the spec: import the library, build a
spatial grid, attach numerical fields, construct process components,
iterate timesteps calling step methods, visualize. -/
def fullPhaseOrder : List Phase := [.imp, .grid, .field, .comp, .run, .plot]

/-- The notebook contains all spec phases as an ordered subsequence. -/
def followsAllPhases (f : NotebookFile) : Bool :=
  isSubseq fullPhaseOrder (nbPhases f.cells)

/-- The notebook contains the given phase somewhere. -/
def hasPhase (f : NotebookFile) (p : Phase) : Bool :=
  (nbPhases f.cells).contains p

/-- Claim C1 as stated: every notebook contains all phases, in order. -/
def claimC1stated : Bool := repoFiles.all followsAllPhases

/-- No statement of the notebook is an error-handling construct. -/
def noErrorHandling (f : NotebookFile) : Bool :=
  (nbStmts f).all (fun s => !s.isErrorHandling)

/-- Claim C3 as stated for one notebook: every object mutated in one cell
and read by a later cell is the grid or a grid-field array. -/
def sharedStateIsGridOnly (f : NotebookFile) : Bool :=
  (sharedMutated f.cells).all (fun n => f.gridNames.contains n)

/-- Amended C3 for one notebook: every object mutated in one cell and read
by a later cell is the grid, a grid-field array, or a stateful library
object (component instance, flow director, or parcels DataRecord). -/
def sharedStateClassified (f : NotebookFile) : Bool :=
  (sharedMutated f.cells).all
    (fun n => f.gridNames.contains n || f.stateObjects.contains n)

/-- The argument is a literal written at the call site. -/
def ArgV.isLiteral : ArgV → Bool
  | .lit => true
  | _ => false

/-- Claim C4 as stated: every library entry point is invoked with literal
arguments only. -/
def claimC4stated : Bool :=
  repoFiles.all (fun f => (nbStmts f).all (fun s => s.callArgs.all ArgV.isLiteral))

/-- The computed arrays that do appear as library-call arguments in the
notebooks: shapefile paths, the parcel item/variable dictionaries, the
parcel filter and aggregate, the fault-throw time and rate arrays, the
faulted-nodes indicator, and field arrays bound by add_zeros. -/
def precomputedArgNames : List String :=
  ["shp_file", "points_shapefile", "items", "variables", "parcelfilter",
   "vol_orig_link", "time", "rate", "faulted_nodes", "z"]

/-- Amended C4 argument discipline: a call argument is a literal, a named
literal constant, a field name, a previously constructed library object, or
one of the explicitly precomputed arrays. -/
def ArgV.isAcceptable : ArgV → Bool
  | .lit => true
  | .namedLit _ => true
  | .fieldName _ => true
  | .obj _ => true
  | .arr n => precomputedArgNames.contains n

/-- All per-step update argument lists of a notebook. -/
def allStepArgLists (f : NotebookFile) : List (List ArgV) :=
  ((nbStmts f).map Stmt.stepArgLists).flatten

/-- All landlab plotting-helper argument lists of a notebook. -/
def allPlotArgLists (f : NotebookFile) : List (List ArgV) :=
  ((nbStmts f).map Stmt.landlabPlotArgLists).flatten

/-- The argument list passes the timestep duration `dt`. -/
def hasDtArg (a : List ArgV) : Bool := a.contains (ArgV.namedLit "dt")

/-- The first argument of the call is a library object (the grid). -/
def headIsObj (a : List ArgV) : Bool :=
  match a with
  | .obj _ :: _ => true
  | _ => false

/-- The argument list contains at least one field name. -/
def hasFieldNameArg (a : List ArgV) : Bool :=
  a.any (fun x =>
    match x with
    | .fieldName _ => true
    | _ => false)

/-- Claim C5 as stated: every per-step update call takes a timestep
duration, and every plotting-helper call takes a grid and one or more
field names. -/
def claimC5stated : Bool :=
  repoFiles.all (fun f => (allStepArgLists f).all hasDtArg) &&
  repoFiles.all (fun f =>
    (allPlotArgLists f).all (fun a => headIsObj a && hasFieldNameArg a))

/-- Amended C5 step discipline: a step call takes exactly the timestep
duration or no argument at all. -/
def stepArgsDtOrNone (a : List ArgV) : Bool :=
  a == [ArgV.namedLit "dt"] || a == ([] : List ArgV)

/-- Amended C5 plot discipline: the displayed-value arguments following the
grid are field names, arrays of per-node or per-link values, literal
options, or the parcels record. -/
def plotValueArgOk : ArgV → Bool
  | .fieldName _ => true
  | .arr _ => true
  | .lit => true
  | .obj _ => true
  | .namedLit _ => false

/-- Claim C6 as stated: every statement of every cell is a library call, a
parameter choice, or a plotting command (imports allowed). -/
def claimC6stated : Bool :=
  repoFiles.all (fun f =>
    (nbStmts f).all (fun s =>
      s.isLibraryCall || s.isParamChoice || s.isPlotting || s.isImport))

/-- Amended C6 statement discipline: no statement defines a function or
handles errors, and every loop is a fixed positive-count loop that drives
at least one component step call. -/
def stmtIsTutorialForm : Stmt → Bool
  | .funcDef _ => false
  | .tryExcept _ _ => false
  | .loop k body => decide (0 < k) && body.any SimpleStmt.isStep
  | _ => true

/-- The four library use cases the spec lists. -/
inductive UseCase
  | riverNetworkSedimentTransport
  | lithosphericFlexure
  | boundaryConditionSetup
  | normalFaultUplift
deriving BEq, DecidableEq

/-- The notebook constructs a component of the given library class. -/
def constructsComponent (f : NotebookFile) (cls : String) : Bool :=
  (nbStmts f).any (Stmt.constructsClass cls)

/-- The notebook assigns node boundary statuses. -/
def setsBoundaryStatus (f : NotebookFile) : Bool :=
  (nbStmts f).any Stmt.isSetStatus

/-- The use cases a notebook demonstrates, read off from the components it
constructs and the boundary statuses it assigns. -/
def demonstratedCases (f : NotebookFile) : List UseCase :=
  (if constructsComponent f "NetworkSedimentTransporter"
    then [UseCase.riverNetworkSedimentTransport] else []) ++
  (if constructsComponent f "Flexure1D"
    then [UseCase.lithosphericFlexure] else []) ++
  (if setsBoundaryStatus f
    then [UseCase.boundaryConditionSetup] else []) ++
  (if constructsComponent f "NormalFault"
    then [UseCase.normalFaultUplift] else [])

/-- The four use cases listed by the spec, in repository order of the
notebooks that demonstrate them. -/
def listedUseCases : List UseCase :=
  [.riverNetworkSedimentTransport, .boundaryConditionSetup,
   .lithosphericFlexure, .normalFaultUplift]

/-!
Exact-arithmetic embedding of the bedrock-reset invariant of the final
NormalFault model loop (claim C8).  `npMinimumAt` is
`b[:] = np.minimum(b, grid.at_node["topographic__elevation"])` read at one
node; `upliftCoreAt` is `z[grid.core_nodes] += U * dt` (and the identical
statement for `b`) read at one node.
-/

/-- Pointwise `np.minimum` of the bedrock and elevation arrays. -/
def npMinimumAt (b z : Nat → ℚ) : Nat → ℚ := fun n => min (b n) (z n)

/-- Uplift of a field on core nodes only: `f[core] += amount`. -/
def upliftCoreAt (core : Nat → Bool) (amount : ℚ) (f : Nat → ℚ) : Nat → ℚ :=
  fun n => if core n then f n + amount else f n

/-- Uplift rate `U = 0.0001` of the soil model cell. -/
def nfSoilU : ℚ := 1 / 10000

/-- Timestep `dt = 100` of the soil model cell. -/
def nfSoilDt : ℚ := 100

/-!
Exact embedding of the interior-rectangle boundary-conditions notebook
(claim C9): a `RasterModelGrid((10, 10))` with unit spacing numbers its
nodes row by row from the bottom-left, node `i` sitting at
`x = i % 10`, `y = i / 10`; perimeter nodes start as fixed-value
boundaries (status 1), interior nodes as core (status 0), and
`BC_NODE_IS_CLOSED` is status 4.
-/

/-- x coordinate of node `i` of the 10x10 unit-spacing grid. -/
def xOfNode (i : Nat) : ℚ := ((i % 10 : Nat) : ℚ)

/-- y coordinate of node `i` of the 10x10 unit-spacing grid. -/
def yOfNode (i : Nat) : ℚ := ((i / 10 : Nat) : ℚ)

/-- Rectangle bounds of the notebook: min_x, max_x, min_y, max_y. -/
def bcMinX : ℚ := 5 / 2

/-- max_x = 5.0 -/
def bcMaxX : ℚ := 5

/-- min_y = 3.5 -/
def bcMinY : ℚ := 7 / 2

/-- max_y = 7.5 -/
def bcMaxY : ℚ := 15 / 2

/-- The mask
`np.logical_and(x < max_x, x > min_x) & np.logical_and(y < max_y, y > min_y)`
read at node `i`. -/
def bcMyNodes (i : Nat) : Bool :=
  (decide (xOfNode i < bcMaxX) && decide (bcMinX < xOfNode i)) &&
  (decide (yOfNode i < bcMaxY) && decide (bcMinY < yOfNode i))

/-- Node `i` lies on the grid perimeter. -/
def bcIsPerimeter (i : Nat) : Bool :=
  (i % 10 == 0) || (i % 10 == 9) || (i / 10 == 0) || (i / 10 == 9)

/-- Node status before the assignment: perimeter nodes are fixed-value
boundaries (1), interior nodes are core (0). -/
def bcStatusBefore (i : Nat) : Nat := if bcIsPerimeter i then 1 else 0

/-- Node status after `mg.status_at_node[my_nodes] = mg.BC_NODE_IS_CLOSED`
(closed = 4). -/
def bcStatusAfter (i : Nat) : Nat :=
  if bcMyNodes i then 4 else bcStatusBefore i

/-- The nodes selected by the mask. -/
def bcSelectedNodes : List Nat := (List.range 100).filter bcMyNodes

/-- The nodes whose status the assignment changes. -/
def bcChangedNodes : List Nat :=
  (List.range 100).filter (fun i => bcStatusAfter i != bcStatusBefore i)

/-!
Exact embedding of the cumulative-throw computation of the NormalFault
notebook (claim C10): `t = np.arange(0, 300 * dt, dt)` with `dt = 1000`,
`rate_constant = np.interp(t, [0, 300 * dt], [0.001, 0.001])`,
`cumulative_rock_uplift_constant = np.cumsum(rate_constant) * dt`.
-/

/-- The timestep `dt = 1000` of the cumulative-throw cell. -/
def nfModelDt : ℚ := 1000

/-- `np.arange(0, 300 * dt, dt)`: the 300 sample times. -/
def nfSampleTimes : List ℚ := (List.range 300).map (fun i => (i : ℚ) * nfModelDt)

/-- `np.interp` over a sorted list of (x, y) breakpoints: clamped at the
ends, linear in between. -/
def npInterpPts (x : ℚ) : List (ℚ × ℚ) → ℚ
  | [] => 0
  | [(_, y0)] => y0
  | (x0, y0) :: (x1, y1) :: rest =>
      if x ≤ x0 then y0
      else if x ≤ x1 then y0 + (y1 - y0) * (x - x0) / (x1 - x0)
      else npInterpPts x ((x1, y1) :: rest)

/-- `rate_constant = np.interp(t, [0, 300 * dt], [0.001, 0.001])`. -/
def nfRateConstant : List ℚ :=
  nfSampleTimes.map (fun x => npInterpPts x [(0, 1 / 1000), (300 * nfModelDt, 1 / 1000)])

/-- `np.cumsum`: partial sums, first element included. -/
def npCumsum (l : List ℚ) : List ℚ := (l.scanl (· + ·) 0).tail

/-- `cumulative_rock_uplift_constant = np.cumsum(rate_constant) * dt`. -/
def nfCumulativeConstant : List ℚ :=
  (npCumsum nfRateConstant).map (fun c => c * nfModelDt)

/-!
Claim theorems.
-/

/-- C1, counterexample: the interior-rectangle boundary-conditions notebook
does not contain all five spec phases — it never constructs a process
component and never calls a step method — so the claim that every notebook
contains all of the phases in order is false at that notebook. -/
theorem C1_counterexample : followsAllPhases bcFile = false := by rfl

/-- C1 (amended): the sediment-transporter, flexure and normal-fault
notebooks each contain the full import → build grid → attach fields →
construct components → iterate step calls → visualize sequence as an
ordered subsequence of their cells; the boundary-conditions notebook
contains import → build grid → attach field → visualize in order but has
no component-construction phase and no step-iteration phase. -/
theorem C1_phase_order_amended :
    (followsAllPhases nstFile && followsAllPhases flexFile &&
     followsAllPhases nfFile &&
     isSubseq [Phase.imp, Phase.grid, Phase.field, Phase.plot] (nbPhases bcFile.cells) &&
     !hasPhase bcFile Phase.comp && !hasPhase bcFile Phase.run) = true := by rfl

/-- C2: no statement of any notebook, at top level or inside a model loop,
is a try/except or any other construct that intercepts exceptions, so an
exception raised by a library call propagates out of its cell unmodified.
The only warnings-related call, `warnings.filterwarnings("ignore")` in the
sediment-transporter notebook, configures the warnings module and cannot
catch or suppress a raised exception. -/
theorem C2_no_error_handling : repoFiles.all noErrorHandling = true := by rfl

/-- C3, counterexample: in the flexure notebook the component instance
`flex` is mutated in place (`flex.eet *= 2.0`, `flex.load_at_node[...] = ...`,
`flex.dz_at_node[:] = 0.0`) and read by later cells, and `flex` is not the
grid object nor a grid-field array, so the grid is not the only mutable
state shared between cells. -/
theorem C3_counterexample : sharedStateIsGridOnly flexFile = false := by rfl

/-- C3 (amended): every object that is mutated in one cell and read by a
later cell of any notebook is the grid, a grid-field array, or a stateful
library object bound in that notebook (a process component, a flow
director, or the parcels DataRecord). -/
theorem C3_shared_state_amended : repoFiles.all sharedStateClassified = true := by rfl

/-- C4, counterexample: the NormalFault notebook invokes
`NormalFault(grid, fault_throw_rate_through_time={"time": time, "rate": rate}, ...)`
passing the `time` and `rate` arrays computed by an earlier cell (and every
component constructor passes the previously constructed grid), so the claim
that every library entry point is invoked with literal arguments only is
false at that notebook. -/
theorem C4_counterexample :
    (nbStmts nfFile).all (fun s => s.callArgs.all ArgV.isLiteral) = false := by rfl

/-- C4 (amended): every argument of every landlab entry point exercised by
the notebooks is a literal, a named constant bound to a literal parameter
choice, a field-name string, a previously constructed library object, or
one of the explicitly precomputed arrays (shapefile paths, parcel
item/variable collections, parcel filter and aggregate, fault-throw time
and rate arrays, faulted-nodes indicator, grid-field arrays). -/
theorem C4_call_args_amended :
    repoFiles.all (fun f => (nbStmts f).all (fun s => s.callArgs.all ArgV.isAcceptable)) = true := by
  rfl

/-- C5, counterexample: `fr.run_one_step()` (FlowAccumulator) in the
NormalFault notebook's model loops takes no timestep argument, so the claim
that every per-step update call takes a timestep duration is false there. -/
theorem C5_counterexample : (allStepArgLists nfFile).all hasDtArg = false := by rfl

/-- C5 (amended): every per-step update call of every notebook takes either
exactly the timestep duration `dt` or no argument at all, and every landlab
plotting-helper call takes the grid as its first argument followed only by
field names, arrays of per-node or per-link values, literal options, or
the parcels record. -/
theorem C5_signatures_amended :
    (repoFiles.all (fun f => (allStepArgLists f).all stepArgsDtOrNone) &&
     repoFiles.all (fun f =>
       (allPlotArgLists f).all (fun a => headIsObj a && a.tail.all plotValueArgOk))) = true := by
  rfl

/-- C6, counterexample: the NormalFault notebook's model cells contain
fixed-count `for` loops and in-place numpy mutations such as
`b[:] = np.minimum(b, grid.at_node["topographic__elevation"])`, which are
neither library calls, parameter choices, nor plotting commands, so the
claim that every cell consists only of those is false at that notebook. -/
theorem C6_counterexample :
    (nbStmts nfFile).all
      (fun s => s.isLibraryCall || s.isParamChoice || s.isPlotting || s.isImport) = false := by
  rfl

/-- C6 (amended): no statement of any notebook defines a function or
intercepts errors, and every loop is a fixed positive-count for loop that
drives component step calls; beyond library calls, parameter choices and
plotting, cells contain only such loops, small numpy computations and
in-place array mutations, and attribute queries. -/
theorem C6_cell_content_amended :
    repoFiles.all (fun f => (nbStmts f).all stmtIsTutorialForm) = true := by rfl

/-- C7: every source file of the repository carries Jupyter notebook
metadata (nbformat 4, Python kernel), and the four notebooks demonstrate
exactly the four listed library use cases — river network sediment
transport, boundary-condition setup, lithospheric flexure, and normal-fault
uplift — read off from the components each constructs and the boundary
statuses it assigns. -/
theorem C7_files_and_use_cases :
    (repoFiles.all nbIsJupyter &&
     (repoFiles.map demonstratedCases).flatten == listedUseCases) = true := by rfl

/-- C8: in the final NormalFault model loop, for any bedrock and elevation
fields and any node, immediately after
`b[:] = np.minimum(b, grid.at_node["topographic__elevation"])` the bedrock
is at most the elevation; a node already satisfying `b ≤ z` is left
unchanged by the reset; and the equal uplift `z[core] += U*dt`,
`b[core] += U*dt` preserves the inequality at every node. -/
theorem C8_bedrock_invariant (b z : Nat → ℚ) (core : Nat → Bool) (n : Nat) :
    npMinimumAt b z n ≤ z n ∧
    (b n ≤ z n → npMinimumAt b z n = b n) ∧
    (∀ b2 z2 : Nat → ℚ, b2 n ≤ z2 n →
      upliftCoreAt core (nfSoilU * nfSoilDt) b2 n ≤
        upliftCoreAt core (nfSoilU * nfSoilDt) z2 n) := by
  refine ⟨min_le_right _ _, fun h => min_eq_left h, fun b2 z2 h => ?_⟩
  by_cases hc : core n = true
  · simp only [upliftCoreAt, hc, if_true]
    exact add_le_add_right h _
  · simp only [upliftCoreAt, hc, if_false]
    exact h

/-- C8 witness: the invariant evaluated at the concrete node 0 with bedrock
constantly 0 and elevation constantly 1. -/
theorem C8_bedrock_invariant_witness :
    npMinimumAt (fun _ => (0 : ℚ)) (fun _ => 1) 0 ≤ 1 ∧
    npMinimumAt (fun _ => (0 : ℚ)) (fun _ => 1) 0 = 0 ∧
    upliftCoreAt (fun _ => true) (nfSoilU * nfSoilDt) (fun _ => (0 : ℚ)) 0 ≤
      upliftCoreAt (fun _ => true) (nfSoilU * nfSoilDt) (fun _ => (1 : ℚ)) 0 := by
  have h := C8_bedrock_invariant (fun _ => (0 : ℚ)) (fun _ => (1 : ℚ)) (fun _ => true) 0
  exact ⟨h.1, h.2.1 (by norm_num), h.2.2 (fun _ => (0 : ℚ)) (fun _ => (1 : ℚ)) (by norm_num)⟩

/-- C9: on the 10x10 unit-spacing grid, the rectangle mask
`2.5 < x < 5.0`, `3.5 < y < 7.5` selects exactly the eight nodes
43, 44, 53, 54, 63, 64, 73, 74 — those with x in 3..4 and y in 4..7 — all
of which are interior; the closed-boundary assignment changes the status
of exactly those eight nodes and leaves every perimeter node's status
unchanged. -/
theorem C9_interior_rectangle_mask :
    bcSelectedNodes = [43, 44, 53, 54, 63, 64, 73, 74] ∧
    bcSelectedNodes.all
      (fun i => ((i % 10 == 3) || (i % 10 == 4)) &&
                ((i / 10 == 4) || (i / 10 == 5) || (i / 10 == 6) || (i / 10 == 7))) = true ∧
    bcSelectedNodes.all (fun i => !bcIsPerimeter i) = true ∧
    bcChangedNodes = [43, 44, 53, 54, 63, 64, 73, 74] ∧
    (List.range 100).all
      (fun i => !bcIsPerimeter i || (bcStatusAfter i == bcStatusBefore i)) = true := by
  refine ⟨?_, ?_, ?_, ?_, ?_⟩ <;> with_unfolding_all rfl

set_option maxRecDepth 40000 in
/-- C10: with dt = 1000, the constant-rate series interpolated at all 300
sample times is constantly 0.001, and the final element of
`np.cumsum(rate_constant) * dt` is exactly 300: a constant throw rate of
0.001 over 300 timesteps of 1000 years accumulates exactly 300 m of fault
throw in exact arithmetic. -/
theorem C10_cumulative_throw :
    nfRateConstant = List.replicate 300 (1 / 1000) ∧
    nfCumulativeConstant.getLast? = some 300 := by
  refine ⟨?_, ?_⟩ <;> with_unfolding_all rfl
